import Mathlib

/-!
# Messenger frontend: message reconciliation and membership panel

A shallow embedding of `src/components/Chat/ChatWindow.jsx` and
`src/components/Chat/ChatInfoModal.jsx`.

Every React state variable becomes a field of a state record and every handler
becomes a function on that record.  An `await`ed remote call is represented by
its outcome (`Remote.resolved` / `Remote.rejected`), passed to the handler as an
argument; the handler returns the next state together with the remote calls it
issued, in order.  Each handler is one atomic transition.
-/

set_option autoImplicit false

namespace Messenger

/-! ## Values -/

/-- Message identifiers as they arrive in JSON: a number or a string.  Equality
of two `MsgId`s is JavaScript strict equality (`===`): a number never equals a
string. -/
inductive MsgId where
  | num (n : Int)
  | str (s : String)
  deriving DecidableEq, Repr

/-- Message record `{ id, senderName, text }`. -/
structure Message where
  id : MsgId
  senderName : String
  text : String
  deriving DecidableEq, Repr

/-- Member record `{ username, name }`. -/
structure Member where
  username : String
  name : String
  deriving DecidableEq, Repr

/-- Body of a `fetchChatHistory` response (`response.data`).  The field `chats`
may be missing; an array, when present, is always truthy in JavaScript, so the
test `response.data.chats` is a presence test. -/
structure ChatData where
  chat_name : String
  description : String
  members : List Member
  chats : Option (List Message)
  deriving DecidableEq, Repr

/-- Response object of `fetchChatHistory`; `data` may be missing. -/
structure FetchResponse where
  data : Option ChatData
  deriving DecidableEq, Repr

/-- Outcome of an awaited promise: it resolves with a value or it rejects
(the `catch` branch of the surrounding `try`). -/
inductive Remote (α : Type) where
  | resolved (a : α)
  | rejected
  deriving DecidableEq, Repr

/-- Remote calls a handler can issue (the functions imported from `api/api`). -/
inductive Call where
  | fetchChatHistory (chatId : String)
  | sendMessage (chatId : String) (text : String)
  | deleteMessage (chatId : String) (messageId : MsgId)
  | updateMessage (chatId : String) (messageId : Option MsgId) (text : String)
  deriving DecidableEq, Repr

/-! ## Strings -/

/-- Code points removed by `String.prototype.trim`: ECMAScript WhiteSpace
(TAB, VT, FF, ZWNBSP and the Unicode space separators) and LineTerminator
(LF, CR, LS, PS). -/
def isJsWhiteSpace (c : Char) : Bool :=
  let n := c.toNat
  n == 0x09 || n == 0x0A || n == 0x0B || n == 0x0C || n == 0x0D || n == 0x20 ||
  n == 0xA0 || n == 0x1680 || (0x2000 ≤ n && n ≤ 0x200A) || n == 0x2028 ||
  n == 0x2029 || n == 0x202F || n == 0x205F || n == 0x3000 || n == 0xFEFF

/-- Model of `String.prototype.trim`: white space is dropped at both ends. -/
def jsTrim (s : String) : String :=
  String.mk ((s.data.dropWhile isJsWhiteSpace).reverse.dropWhile isJsWhiteSpace).reverse

/-- Truthiness of a JavaScript string: every string but the empty one. -/
def truthy (s : String) : Bool :=
  !s.data.isEmpty

/-! ## ChatWindow state -/

/-- State variables of `ChatWindow` (the `useState` cells), apart from the
realtime client which is modelled with the effects below. -/
structure State where
  messages : List Message
  newMessage : String
  editMessageId : Option MsgId
  editMessageText : String
  chatInfo : Option ChatData
  showModal : Bool
  deriving DecidableEq, Repr

/-- Initial values of the `useState` cells. -/
def State.init : State :=
  { messages := [], newMessage := "", editMessageId := none, editMessageText := "",
    chatInfo := none, showModal := false }

/-- State update of `fetchData` (lines 26-41) for a given outcome of
`fetchChatHistory(chatId)`. -/
def fetchData (r : Remote FetchResponse) (s : State) : State :=
  match r with
  | .resolved response =>
    match response.data with
    | some data =>
      match data.chats with
      | some chats => { s with messages := chats, chatInfo := some data }
      | none => { s with messages := [], chatInfo := none }
    | none => { s with messages := [], chatInfo := none }
  | .rejected => { s with messages := [], chatInfo := none }

/-- State update of `updateChatInfo` (lines 165-174). -/
def updateChatInfo (r : Remote FetchResponse) (s : State) : State :=
  match r with
  | .resolved response =>
    match response.data with
    | some data => { s with chatInfo := some data }
    | none => s
  | .rejected => s

/-- Handler `handleSendMessage` (lines 112-124): `send` is the outcome of
`apiSendMessage`, `refetch` the outcome of the `fetchChatHistory` call made by
the `fetchData()` that follows a successful send. -/
def handleSendMessage (chatId : String) (send : Remote Unit) (refetch : Remote FetchResponse)
    (s : State) : State × List Call :=
  if !truthy (jsTrim s.newMessage) then (s, [])
  else
    match send with
    | .resolved _ =>
      (fetchData refetch { s with newMessage := "" },
        [Call.sendMessage chatId s.newMessage, Call.fetchChatHistory chatId])
    | .rejected => (s, [Call.sendMessage chatId s.newMessage])

/-- Handler `handleDeleteMessage` (lines 126-133). -/
def handleDeleteMessage (chatId : String) (messageId : MsgId) (del : Remote Unit)
    (s : State) : State × List Call :=
  match del with
  | .resolved _ =>
    ({ s with messages := s.messages.filter (fun message => message.id != messageId) },
      [Call.deleteMessage chatId messageId])
  | .rejected => (s, [Call.deleteMessage chatId messageId])

/-- Handler `handleEditMessage` (lines 135-150). -/
def handleEditMessage (chatId : String) (upd : Remote Unit) (s : State) : State × List Call :=
  if !truthy (jsTrim s.editMessageText) then (s, [])
  else
    match upd with
    | .resolved _ =>
      ({ s with
          messages := s.messages.map (fun message =>
            if some message.id = s.editMessageId then
              { message with text := s.editMessageText } else message),
          editMessageId := none,
          editMessageText := "" },
        [Call.updateMessage chatId s.editMessageId s.editMessageText])
    | .rejected => (s, [Call.updateMessage chatId s.editMessageId s.editMessageText])

/-- Handler `startEditingMessage` (lines 152-155). -/
def startEditingMessage (message : Message) (s : State) : State :=
  { s with editMessageId := some message.id, editMessageText := message.text }

/-- The cancel button of the edit form (line 222). -/
def cancelEdit (s : State) : State :=
  { s with editMessageId := none, editMessageText := "" }

/-! ## Push events -/

/-- Payload `data` of an event envelope: `{ messageId, text }`. -/
structure PushData where
  messageId : MsgId
  text : String
  deriving DecidableEq, Repr

/-- Event envelope `ctx.data = { type, data }`; `type` may be missing. -/
structure Envelope where
  type : Option String
  data : PushData
  deriving DecidableEq, Repr

/-- Publication context `ctx`; `ctx.data` may be missing. -/
structure Publication where
  data : Option Envelope
  deriving DecidableEq, Repr

/-- The `publication` callback (lines 78-91).  `chatId` is the chat id captured
by the closure, `r` the outcome of the `fetchChatHistory` call made by
`fetchData()` or `updateChatInfo()`. -/
def onPublication (chatId : String) (ctx : Publication) (r : Remote FetchResponse)
    (s : State) : State × List Call :=
  match ctx.data with
  | none => (s, [])
  | some env =>
    match env.type with
    | none => (s, [])
    | some type =>
      if !truthy type then (s, [])
      else if type = "send_message" then
        (fetchData r s, [Call.fetchChatHistory chatId])
      else if type = "edit_message" then
        (updateChatInfo r { s with messages := s.messages.map (fun msg =>
            if msg.id = env.data.messageId then { msg with text := env.data.text } else msg) },
          [Call.fetchChatHistory chatId])
      else if type = "delete_message" then
        (updateChatInfo r { s with messages := s.messages.filter (fun msg =>
            msg.id != env.data.messageId) },
          [Call.fetchChatHistory chatId])
      else (s, [])

/-! ## Rendering of the message list -/

/-- Row produced for one message by the `map` of lines 189-209: the React key
and the two fields that are displayed. -/
structure MessageItem where
  key : MsgId
  senderName : String
  text : String
  deriving DecidableEq, Repr

/-- Store of JavaScript arrays, addressed by reference (position in the store).
`Array.prototype.reverse` mutates its receiver, so the render is modelled over
a store rather than over values. -/
abbrev Heap := List (List Message)

/-- Contents of the array behind a reference. -/
def Heap.read (h : Heap) (ref : Nat) : List Message :=
  h.getD ref []

/-- Array spread `[...xs]`: a fresh array with the elements of `xs`. -/
def spreadCopy (h : Heap) (ref : Nat) : Heap × Nat :=
  (h ++ [h.read ref], h.length)

/-- Model of `Array.prototype.reverse`: the array behind `ref` is reversed where
it stands and the same reference is returned. -/
def reverseInPlace (h : Heap) (ref : Nat) : Heap × Nat :=
  (h.set ref (h.read ref).reverse, ref)

/-- The expression `[...messages].reverse().map(message => ...)` of lines
189-209, evaluated in store `h` with `messages` the reference held by the state
cell.  Returns the store afterwards and the rows in display order. -/
def renderMessageList (h : Heap) (messages : Nat) : Heap × List MessageItem :=
  let c := spreadCopy h messages
  let r := reverseInPlace c.1 c.2
  (r.1, (r.1.read r.2).map (fun message =>
    { key := message.id, senderName := message.senderName, text := message.text }))

/-! ## Operation sequences on ChatWindow -/

/-- One interaction with `ChatWindow`: a user action or an event from the
environment, together with the outcomes of the remote calls it awaits. -/
inductive Op where
  | loadChat (r : Remote FetchResponse)
  | typeNewMessage (text : String)
  | sendMessage (send : Remote Unit) (refetch : Remote FetchResponse)
  | deleteMessage (messageId : MsgId) (del : Remote Unit)
  | startEdit (message : Message)
  | typeEditText (text : String)
  | cancelEdit
  | commitEdit (upd : Remote Unit)
  | push (ctx : Publication) (r : Remote FetchResponse)
  deriving DecidableEq, Repr

/-- State after one operation. -/
def step (chatId : String) (op : Op) (s : State) : State :=
  match op with
  | .loadChat r => fetchData r s
  | .typeNewMessage text => { s with newMessage := text }
  | .sendMessage send refetch => (handleSendMessage chatId send refetch s).1
  | .deleteMessage messageId del => (handleDeleteMessage chatId messageId del s).1
  | .startEdit message => startEditingMessage message s
  | .typeEditText text => { s with editMessageText := text }
  | .cancelEdit => cancelEdit s
  | .commitEdit upd => (handleEditMessage chatId upd s).1
  | .push ctx r => (onPublication chatId ctx r s).1

/-- State after a sequence of operations. -/
def run (chatId : String) (ops : List Op) (s : State) : State :=
  ops.foldl (fun acc op => step chatId op acc) s

/-- Whether the rendered component offers the operation in state `s`
(lines 188-239): the delete and edit icons exist for the listed messages, the
edit form (draft input, submit, cancel) is rendered only when
`editMessageId !== null`, and the send form only when `editMessageId === null`.
Loads and push events come from the environment and are always possible. -/
def enabled (op : Op) (s : State) : Bool :=
  match op with
  | .loadChat _ => true
  | .push _ _ => true
  | .typeNewMessage _ => s.editMessageId == none
  | .sendMessage _ _ => s.editMessageId == none
  | .deleteMessage messageId _ => s.messages.any (fun message => message.id == messageId)
  | .startEdit message => s.messages.contains message
  | .typeEditText _ => s.editMessageId != none
  | .cancelEdit => s.editMessageId != none
  | .commitEdit _ => s.editMessageId != none

/-- One operation through the rendered interface: an operation the interface
does not offer changes nothing. -/
def uiStep (chatId : String) (op : Op) (s : State) : State :=
  if enabled op s then step chatId op s else s

/-- State after a sequence of operations through the rendered interface. -/
def uiRun (chatId : String) (ops : List Op) (s : State) : State :=
  ops.foldl (fun acc op => uiStep chatId op acc) s

/-- Identifiers of a message list, in order. -/
def ids (ms : List Message) : List MsgId :=
  ms.map (fun m => m.id)

/-- The message list carried by a fetch outcome has pairwise distinct ids
(vacuous when the fetch rejects or carries no list). -/
def fetchedDistinct (r : Remote FetchResponse) : Bool :=
  match r with
  | .resolved response =>
    match response.data with
    | some data =>
      match data.chats with
      | some chats => decide (ids chats).Nodup
      | none => true
    | none => true
  | .rejected => true

/-- Every history fetched during the operation has pairwise distinct ids. -/
def Op.fetchedDistinct (op : Op) : Bool :=
  match op with
  | .loadChat r => Messenger.fetchedDistinct r
  | .sendMessage _ refetch => Messenger.fetchedDistinct refetch
  | .push _ r => Messenger.fetchedDistinct r
  | _ => true

/-! ## Realtime client lifecycle (the second `useEffect`, lines 49-110) -/

/-- A `Centrifuge` instance created by `initCentrifuge`, with the single
subscription opened on it. -/
structure Client where
  channel : String
  connected : Bool
  deriving DecidableEq, Repr

/-- The component together with its realtime resources.
* `deps`: the `chatId` of the last effect run (`none` before mount);
* `centrifuge`: the `centrifuge` state cell, a reference into `clients`;
* `clients`: every instance created so far;
* `cleanup`: the cleanup closure returned by the last effect run, represented by
  the value of `centrifuge` that the closure captured;
* `pending`: `initCentrifuge` calls still awaiting their token, with the
  `chatId` each one captured. -/
structure Component where
  deps : Option String
  centrifuge : Option Nat
  clients : List Client
  cleanup : Option (Option Nat)
  pending : List String
  ui : State
  deriving DecidableEq, Repr

/-- Component before its first render. -/
def Component.init : Component :=
  { deps := none, centrifuge := none, clients := [], cleanup := none, pending := [],
    ui := State.init }

/-- Method `disconnect()` of an instance. -/
def disconnect (clients : List Client) (ref : Nat) : List Client :=
  clients.modify (fun c => { c with connected := false }) ref

/-- Running a cleanup closure (lines 105-109): `if (centrifuge) centrifuge.disconnect()`
on the captured value. -/
def runCleanup (c : Component) : Component :=
  match c.cleanup with
  | some (some ref) => { c with clients := disconnect c.clients ref, cleanup := none }
  | _ => { c with cleanup := none }

/-- Events in the life of the component. -/
inductive Event where
  | render (chatId : String) (r : Remote FetchResponse)
  | tokenSettled (ok : Bool)
  | publication (client : Nat) (ctx : Publication) (r : Remote FetchResponse)
  | unmount
  deriving DecidableEq, Repr

/-- Effect of one event.
* `render chatId r`: a render with prop `chatId`.  When `chatId` differs from the
  dependencies of the last run, the previous cleanup runs, then both effects run:
  `fetchData()` (outcome `r`) and `initCentrifuge()` when `chatId` is truthy, and
  the new cleanup closure captures the `centrifuge` cell of this render.
* `tokenSettled ok`: the oldest pending `initCentrifuge` resumes; on success it
  creates and connects an instance, subscribes to its captured `chatId` and
  stores the instance with `setCentrifuge`.
* `publication client ctx r`: the subscription of `client` delivers `ctx`; a
  disconnected instance delivers nothing.
* `unmount`: the last cleanup runs. -/
def Component.step (ev : Event) (c : Component) : Component :=
  match ev with
  | .render chatId r =>
    if c.deps = some chatId then c
    else
      let c1 := runCleanup c
      { c1 with
        deps := some chatId,
        ui := if truthy chatId then fetchData r c1.ui else c1.ui,
        pending := if truthy chatId then c1.pending ++ [chatId] else c1.pending,
        cleanup := some c.centrifuge }
  | .tokenSettled ok =>
    match c.pending with
    | [] => c
    | chatId :: rest =>
      if ok then
        { c with
          clients := c.clients ++ [{ channel := chatId, connected := true }],
          centrifuge := some c.clients.length,
          pending := rest }
      else { c with pending := rest }
  | .publication client ctx r =>
    match c.clients.get? client with
    | some cl =>
      if cl.connected then { c with ui := (onPublication cl.channel ctx r c.ui).1 } else c
    | none => c
  | .unmount => runCleanup c

/-- Component after a sequence of events. -/
def Component.run (evs : List Event) (c : Component) : Component :=
  evs.foldl (fun acc ev => Component.step ev acc) c

/-! ## ChatInfoModal -/

/-- State variables of `ChatInfoModal`. -/
structure ModalState where
  members : List Member
  searchQuery : String
  searchResults : List Member
  selectedUsers : List Member
  deriving DecidableEq, Repr

/-- Handler `handleSearch` (lines 27-40); `r` is the outcome of
`searchProfiles(query)` with the `profiles` array of its response. -/
def handleSearch (query : String) (r : Remote (List Member)) (s : ModalState) : ModalState :=
  let s1 := { s with searchQuery := query }
  if jsTrim query = "" then { s1 with searchResults := [] }
  else
    match r with
    | .resolved profiles =>
      { s1 with searchResults := profiles.filter (fun profile =>
          !s.members.any (fun member => member.username == profile.username)) }
    | .rejected => s1

/-- Handler `handleAddMembers` (lines 42-55); `r` is the outcome of `addChatMember`. -/
def handleAddMembers (r : Remote Unit) (s : ModalState) : ModalState :=
  if s.selectedUsers.length = 0 then s
  else
    match r with
    | .resolved _ => { s with members := s.members ++ s.selectedUsers, selectedUsers := [] }
    | .rejected => s

/-- Handler `handleSelectUser` (lines 57-65). -/
def handleSelectUser (user : Member) (s : ModalState) : ModalState :=
  let alreadySelected := s.selectedUsers.any (fun selectedUser =>
    selectedUser.username == user.username)
  if alreadySelected then
    { s with selectedUsers := s.selectedUsers.filter (fun selectedUser =>
        selectedUser.username != user.username) }
  else { s with selectedUsers := s.selectedUsers ++ [user] }

/-- Handler `handleDeleteMember` (lines 67-75); `r` is the outcome of
`deleteChatMember`. -/
def handleDeleteMember (username : String) (r : Remote Unit) (s : ModalState) : ModalState :=
  match r with
  | .resolved _ => { s with members := s.members.filter (fun member => member.username != username) }
  | .rejected => s

/-- One interaction with the modal.  `select k` is a click on row `k` of the
rendered search results (lines 106-114), which calls `handleSelectUser` with
that row's user. -/
inductive ModalOp where
  | search (query : String) (r : Remote (List Member))
  | select (k : Nat)
  | addMembers (r : Remote Unit)
  | deleteMember (username : String) (r : Remote Unit)
  deriving DecidableEq, Repr

/-- Modal state after one interaction. -/
def ModalState.step (op : ModalOp) (s : ModalState) : ModalState :=
  match op with
  | .search query r => handleSearch query r s
  | .select k =>
    match s.searchResults.get? k with
    | some user => handleSelectUser user s
    | none => s
  | .addMembers r => handleAddMembers r s
  | .deleteMember username r => handleDeleteMember username r s

/-- Modal state after a sequence of interactions. -/
def ModalState.run (ops : List ModalOp) (s : ModalState) : ModalState :=
  ops.foldl (fun acc op => ModalState.step op acc) s


/-! ## Auxiliary facts -/

theorem updateChatInfo_messages (r : Remote FetchResponse) (s : State) :
    (updateChatInfo r s).messages = s.messages := by
  rcases r with ⟨⟨_ | _⟩⟩ | _ <;> rfl

theorem updateChatInfo_edit (r : Remote FetchResponse) (s : State) :
    (updateChatInfo r s).editMessageId = s.editMessageId ∧
      (updateChatInfo r s).editMessageText = s.editMessageText := by
  rcases r with ⟨⟨_ | _⟩⟩ | _ <;> exact ⟨rfl, rfl⟩

theorem fetchData_edit (r : Remote FetchResponse) (s : State) :
    (fetchData r s).editMessageId = s.editMessageId ∧
      (fetchData r s).editMessageText = s.editMessageText := by
  rcases r with ⟨⟨_ | ⟨_, _, _, _ | _⟩⟩⟩ | _ <;> exact ⟨rfl, rfl⟩

theorem truthy_literal_delete : truthy "delete_message" = true := by decide

theorem truthy_literal_edit : truthy "edit_message" = true := by decide

theorem jsTrim_of_all_white (t : String) (h : ∀ c ∈ t.data, isJsWhiteSpace c = true) :
    jsTrim t = "" := by
  have h1 : t.data.dropWhile isJsWhiteSpace = [] := by
    rw [List.dropWhile_eq_nil_iff]
    exact h
  unfold jsTrim
  rw [h1]
  rfl

theorem onPublication_delete (chatId : String) (i : MsgId) (t : String)
    (r : Remote FetchResponse) (s : State) :
    (onPublication chatId ⟨some ⟨some "delete_message", ⟨i, t⟩⟩⟩ r s).1.messages =
      s.messages.filter (fun msg => msg.id != i) := by
  simp [onPublication, truthy_literal_delete, updateChatInfo_messages]

theorem onPublication_edit (chatId : String) (i : MsgId) (t : String)
    (r : Remote FetchResponse) (s : State) :
    (onPublication chatId ⟨some ⟨some "edit_message", ⟨i, t⟩⟩⟩ r s).1.messages =
      s.messages.map (fun msg => if msg.id = i then { msg with text := t } else msg) := by
  simp [onPublication, truthy_literal_edit, updateChatInfo_messages]


/-! ## Deleting and editing messages -/

/-- C1: for every state, chat id, message id `i` and outcome of the metadata
refresh, a successful `handleDeleteMessage i` and a `delete_message` push event
with `data.messageId = i` leave the same message list.  That list is the stored
list filtered on `id !== i`: it is a sublist of the stored list (order kept,
entries untouched), it holds exactly the stored messages whose id differs from
`i`, each as often as before; when no stored message has id `i` it is the
stored list; and doing either update a second time changes nothing. -/
theorem deleteMessage_local_and_push_agree (chatId : String) (i : MsgId) (t : String)
    (r : Remote FetchResponse) (s : State) :
    (handleDeleteMessage chatId i (.resolved ()) s).1.messages =
        (onPublication chatId ⟨some ⟨some "delete_message", ⟨i, t⟩⟩⟩ r s).1.messages ∧
      (handleDeleteMessage chatId i (.resolved ()) s).1.messages =
        s.messages.filter (fun m => decide (m.id ≠ i)) ∧
      ((handleDeleteMessage chatId i (.resolved ()) s).1.messages).Sublist s.messages ∧
      (∀ m, m ∈ (handleDeleteMessage chatId i (.resolved ()) s).1.messages ↔
        m ∈ s.messages ∧ m.id ≠ i) ∧
      (∀ m, m.id ≠ i →
        (handleDeleteMessage chatId i (.resolved ()) s).1.messages.count m =
          s.messages.count m) ∧
      ((∀ m ∈ s.messages, m.id ≠ i) →
        (handleDeleteMessage chatId i (.resolved ()) s).1.messages = s.messages) ∧
      (handleDeleteMessage chatId i (.resolved ())
          (handleDeleteMessage chatId i (.resolved ()) s).1).1.messages =
        (handleDeleteMessage chatId i (.resolved ()) s).1.messages ∧
      (onPublication chatId ⟨some ⟨some "delete_message", ⟨i, t⟩⟩⟩ r
          (handleDeleteMessage chatId i (.resolved ()) s).1).1.messages =
        (handleDeleteMessage chatId i (.resolved ()) s).1.messages := by
  have hl : (handleDeleteMessage chatId i (.resolved ()) s).1.messages =
      s.messages.filter (fun m => m.id != i) := rfl
  have hl2 : (handleDeleteMessage chatId i (.resolved ())
      (handleDeleteMessage chatId i (.resolved ()) s).1).1.messages =
      (s.messages.filter (fun m => m.id != i)).filter (fun m => m.id != i) := rfl
  rw [onPublication_delete, onPublication_delete, hl2, hl]
  refine ⟨rfl, ?_, List.filter_sublist _, ?_, ?_, ?_, ?_, ?_⟩
  · apply List.filter_congr
    intro m _
    by_cases h : m.id = i <;> simp [h]
  · intro m
    simp [List.mem_filter]
  · intro m hm
    rw [List.count_filter]
    simpa using hm
  · intro h
    rw [List.filter_eq_self]
    intro m hm
    simpa using h m hm
  · simp [List.filter_filter]
  · simp [List.filter_filter]

/-- Witness for C1: a three-message list with two entries of id 1. -/
theorem deleteMessage_local_and_push_agree_witness :
    (handleDeleteMessage "42" (.num 1) (.resolved ())
        { State.init with messages :=
          [⟨.num 1, "al", "a"⟩, ⟨.num 2, "bo", "b"⟩, ⟨.num 1, "al", "c"⟩] }).1.messages =
      [⟨.num 2, "bo", "b"⟩] := by
  rw [(deleteMessage_local_and_push_agree "42" (.num 1) "" .rejected
    { State.init with messages :=
      [⟨.num 1, "al", "a"⟩, ⟨.num 2, "bo", "b"⟩, ⟨.num 1, "al", "c"⟩] }).2.1]
  decide

/-- C2: for every state, id `i` and text `t`, the list left by an
`edit_message` push event `{messageId: i, text: t}` has the length of the stored
list, the same ids and sender names position by position, at each position the
stored message with its text replaced by `t` when its id is `i` and the stored
message itself otherwise; a successful `handleEditMessage` with pending id `i`
and a draft `t` that is not blank leaves the same list.  The spec scenario
`[{id:1,text:"hi"}]` with `{messageId:1,text:"hello"}` gives
`[{id:1,text:"hello"}]`. -/
theorem editMessage_patch (chatId : String) (i : MsgId) (t : String)
    (r : Remote FetchResponse) (s : State) :
    ((onPublication chatId ⟨some ⟨some "edit_message", ⟨i, t⟩⟩⟩ r s).1.messages).length =
        s.messages.length ∧
      ids (onPublication chatId ⟨some ⟨some "edit_message", ⟨i, t⟩⟩⟩ r s).1.messages =
        ids s.messages ∧
      (onPublication chatId ⟨some ⟨some "edit_message", ⟨i, t⟩⟩⟩ r s).1.messages.map
          (fun m => m.senderName) = s.messages.map (fun m => m.senderName) ∧
      (∀ k, (onPublication chatId ⟨some ⟨some "edit_message", ⟨i, t⟩⟩⟩ r s).1.messages.get? k =
        (s.messages.get? k).map (fun m => if m.id = i then { m with text := t } else m)) ∧
      (∀ m ∈ (onPublication chatId ⟨some ⟨some "edit_message", ⟨i, t⟩⟩⟩ r s).1.messages,
        m.id = i → m.text = t) ∧
      (∀ m ∈ (onPublication chatId ⟨some ⟨some "edit_message", ⟨i, t⟩⟩⟩ r s).1.messages,
        m.id ≠ i → m ∈ s.messages) ∧
      (handleEditMessage chatId (.resolved ())
          { s with editMessageId := some i, editMessageText := t }).1.messages =
        (if truthy (jsTrim t) then
          (onPublication chatId ⟨some ⟨some "edit_message", ⟨i, t⟩⟩⟩ r s).1.messages
        else s.messages) ∧
      (onPublication "42" ⟨some ⟨some "edit_message", ⟨.num 1, "hello"⟩⟩⟩ .rejected
          { State.init with messages := [⟨.num 1, "al", "hi"⟩] }).1.messages =
        [⟨.num 1, "al", "hello"⟩] := by
  rw [onPublication_edit, onPublication_edit]
  refine ⟨by simp, ?_, ?_, ?_, ?_, ?_, ?_, by decide⟩
  · simp only [ids, List.map_map]
    apply List.map_congr_left
    intro m _
    by_cases h : m.id = i <;> simp [h]
  · simp only [List.map_map]
    apply List.map_congr_left
    intro m _
    by_cases h : m.id = i <;> simp [h]
  · intro k
    simp [List.getElem?_map]
  · intro m hm hid
    obtain ⟨m0, _, rfl⟩ := List.mem_map.mp hm
    by_cases h : m0.id = i
    · simp [h]
    · simp [h] at hid
  · intro m hm hid
    obtain ⟨m0, hm0, rfl⟩ := List.mem_map.mp hm
    by_cases h : m0.id = i
    · simp [h] at hid
    · simpa [h] using hm0
  · unfold handleEditMessage
    by_cases ht : truthy (jsTrim t) = true
    · simp [ht]
    · simp [ht]

/-- C3: whenever the draft `editMessageText` is empty or made only of white
space (the code points `trim` removes), `handleEditMessage` issues no remote
call and returns the state it was given, whatever the remote outcome would
have been. -/
theorem handleEditMessage_blank_rejected (chatId : String) (upd : Remote Unit) (s : State)
    (h : ∀ c ∈ s.editMessageText.data, isJsWhiteSpace c = true) :
    handleEditMessage chatId upd s = (s, []) := by
  unfold handleEditMessage
  rw [jsTrim_of_all_white _ h]
  rfl

/-- Witness for C3: a pending edit on message 1 whose draft is a space, a tab and
a no-break space. -/
theorem handleEditMessage_blank_rejected_witness :
    handleEditMessage "42" (.resolved ())
        { State.init with messages := [⟨.num 1, "al", "hi"⟩], editMessageId := some (.num 1),
                          editMessageText := " \t " } =
      ({ State.init with messages := [⟨.num 1, "al", "hi"⟩], editMessageId := some (.num 1),
                         editMessageText := " \t " }, []) :=
  handleEditMessage_blank_rejected "42" (.resolved ()) _ (by decide)


/-! ## Loading, failures, rendering -/

/-- C6: for every prior state the messages and chat info left by `fetchData`
depend on the fetch outcome alone.  A resolved response with `data` and
`data.chats` gives `messages = data.chats` and `chatInfo = data`; a rejected
fetch, a response without `data`, or a `data` without `chats` gives the empty
list and no chat info; two different prior states end with the same messages
and chat info. -/
theorem fetchData_result (r : Remote FetchResponse) (s : State) :
    (∀ response data chats, r = .resolved response → response.data = some data →
        data.chats = some chats →
        (fetchData r s).messages = chats ∧ (fetchData r s).chatInfo = some data) ∧
      ((r = .rejected ∨ ∃ response, r = .resolved response ∧
          (response.data = none ∨ ∃ data, response.data = some data ∧ data.chats = none)) →
        (fetchData r s).messages = [] ∧ (fetchData r s).chatInfo = none) ∧
      (∀ s0 : State, (fetchData r s0).messages = (fetchData r s).messages ∧
        (fetchData r s0).chatInfo = (fetchData r s).chatInfo) := by
  refine ⟨?_, ?_, ?_⟩
  · rintro ⟨_⟩ data chats rfl hd hc
    simp only at hd
    subst hd
    simp [fetchData, hc]
  · rintro (rfl | ⟨⟨_⟩, rfl, hd | ⟨data, hd, hc⟩⟩)
    · exact ⟨rfl, rfl⟩
    · simp only at hd
      subst hd
      exact ⟨rfl, rfl⟩
    · simp only at hd
      subst hd
      simp [fetchData, hc]
  · intro s0
    rcases r with ⟨⟨_ | ⟨_, _, _, _ | _⟩⟩⟩ | _ <;> exact ⟨rfl, rfl⟩

/-- Witness for C6: the spec scenario.  The response
`{chat_name:"Team", description:"d", members:[{username:"al"}],
chats:[{id:1,text:"hi",senderName:"al"}]}` replaces a stale prior state by that
one-element list and a chat info named "Team". -/
theorem fetchData_result_witness :
    (fetchData (.resolved ⟨some ⟨"Team", "d", [⟨"al", ""⟩], some [⟨.num 1, "al", "hi"⟩]⟩⟩)
        { State.init with messages := [⟨.num 9, "bo", "old"⟩] }).messages =
        [⟨.num 1, "al", "hi"⟩] ∧
      ((fetchData (.resolved ⟨some ⟨"Team", "d", [⟨"al", ""⟩], some [⟨.num 1, "al", "hi"⟩]⟩⟩)
        { State.init with messages := [⟨.num 9, "bo", "old"⟩] }).chatInfo.map
          (fun d => d.chat_name)) = some "Team" := by
  have h := (fetchData_result
    (.resolved ⟨some ⟨"Team", "d", [⟨"al", ""⟩], some [⟨.num 1, "al", "hi"⟩]⟩⟩)
    { State.init with messages := [⟨.num 9, "bo", "old"⟩] }).1 _ _ _ rfl rfl rfl
  exact ⟨h.1, by rw [h.2]; rfl⟩

/-- C8: when the remote call rejects, `handleSendMessage`, `handleDeleteMessage`
and `handleEditMessage` each return the state they were given, so messages,
`editMessageId` and `editMessageText` are untouched; the failed send issues no
`fetchChatHistory` call.  When the text passes the blank check the only call
issued is the one that failed. -/
theorem rejected_mutation_keeps_state (chatId : String) (i : MsgId)
    (refetch : Remote FetchResponse) (s : State) :
    (handleSendMessage chatId .rejected refetch s).1 = s ∧
      Call.fetchChatHistory chatId ∉ (handleSendMessage chatId .rejected refetch s).2 ∧
      (truthy (jsTrim s.newMessage) = true →
        (handleSendMessage chatId .rejected refetch s).2 =
          [Call.sendMessage chatId s.newMessage]) ∧
      handleDeleteMessage chatId i .rejected s = (s, [Call.deleteMessage chatId i]) ∧
      (handleEditMessage chatId .rejected s).1 = s ∧
      (truthy (jsTrim s.editMessageText) = true →
        (handleEditMessage chatId .rejected s).2 =
          [Call.updateMessage chatId s.editMessageId s.editMessageText]) := by
  refine ⟨?_, ?_, ?_, rfl, ?_, ?_⟩
  · unfold handleSendMessage
    split <;> rfl
  · unfold handleSendMessage
    split <;> simp
  · intro h
    simp [handleSendMessage, h]
  · unfold handleEditMessage
    split <;> rfl
  · intro h
    simp [handleEditMessage, h]

/-- Witness for C8: a pending edit of message 1 with draft "hello" whose update
call rejects is still pending afterwards, and exactly the update call was
issued. -/
theorem rejected_mutation_keeps_state_witness :
    handleEditMessage "42" .rejected
        { State.init with messages := [⟨.num 1, "al", "hi"⟩], editMessageId := some (.num 1),
                          editMessageText := "hello" } =
      ({ State.init with messages := [⟨.num 1, "al", "hi"⟩], editMessageId := some (.num 1),
                         editMessageText := "hello" },
        [Call.updateMessage "42" (some (.num 1)) "hello"]) := by
  have h := rejected_mutation_keeps_state "42" (.num 1) .rejected
    { State.init with messages := [⟨.num 1, "al", "hi"⟩], editMessageId := some (.num 1),
                      editMessageText := "hello" }
  exact Prod.ext h.2.2.2.2.1 (h.2.2.2.2.2 (by decide))

/-- C9: for a store `h` and a valid reference `messages`, the rows produced by
`[...messages].reverse().map(...)` are the stored messages in reverse order:
as many rows as stored messages, row keys the stored ids reversed, row `k` built
from the stored message at position `length - 1 - k`; and every array that
existed before the render, the stored list included, has the same contents
afterwards. -/
theorem renderMessageList_reverses (h : Heap) (messages : Nat) (hm : messages < h.length) :
    (renderMessageList h messages).2 =
        (h.read messages).reverse.map (fun m => ⟨m.id, m.senderName, m.text⟩) ∧
      (renderMessageList h messages).2.length = (h.read messages).length ∧
      (renderMessageList h messages).2.map (fun item => item.key) =
        (ids (h.read messages)).reverse ∧
      (∀ k, k < (h.read messages).length →
        (renderMessageList h messages).2.get? k =
          ((h.read messages).get? ((h.read messages).length - 1 - k)).map
            (fun m => ⟨m.id, m.senderName, m.text⟩)) ∧
      (renderMessageList h messages).1.read messages = h.read messages ∧
      (∀ ref, ref < h.length → (renderMessageList h messages).1.read ref = h.read ref) := by
  have hrows : (renderMessageList h messages).2 =
      (h.read messages).reverse.map (fun m => ⟨m.id, m.senderName, m.text⟩) := by
    simp [renderMessageList, spreadCopy, reverseInPlace, Heap.read, List.getD_eq_getElem?_getD,
      List.getElem?_set, List.getElem?_append]
  have hkeep : ∀ ref, ref < h.length → (renderMessageList h messages).1.read ref = h.read ref := by
    intro ref href
    have hne : h.length ≠ ref := by omega
    simp [renderMessageList, spreadCopy, reverseInPlace, Heap.read, List.getD_eq_getElem?_getD,
      List.getElem?_set, List.getElem?_append, hne, href]
  refine ⟨hrows, ?_, ?_, ?_, hkeep messages hm, hkeep⟩
  · rw [hrows]
    simp
  · rw [hrows]
    simp [ids, List.map_reverse]
  · intro k hk
    rw [hrows]
    simp only [List.get?_eq_getElem?, List.getElem?_map]
    rw [List.getElem?_reverse hk]

/-- Witness for C9: a store holding one array of three messages, newest first. -/
theorem renderMessageList_reverses_witness :
    (renderMessageList [[⟨.num 3, "al", "c"⟩, ⟨.num 2, "bo", "b"⟩, ⟨.num 1, "al", "a"⟩]] 0).2.map
        (fun item => item.key) = [.num 1, .num 2, .num 3] ∧
      (renderMessageList [[⟨.num 3, "al", "c"⟩, ⟨.num 2, "bo", "b"⟩, ⟨.num 1, "al", "a"⟩]] 0).1.read 0 =
        [⟨.num 3, "al", "c"⟩, ⟨.num 2, "bo", "b"⟩, ⟨.num 1, "al", "a"⟩] := by
  have h := renderMessageList_reverses
    [[⟨.num 3, "al", "c"⟩, ⟨.num 2, "bo", "b"⟩, ⟨.num 1, "al", "a"⟩]] 0 (by decide)
  exact ⟨h.2.2.1, h.2.2.2.2.1⟩


/-! ## Uniqueness of message ids -/

theorem ids_filter_nodup (p : Message → Bool) (ms : List Message) (h : (ids ms).Nodup) :
    (ids (ms.filter p)).Nodup :=
  h.sublist ((List.filter_sublist ms).map _)

theorem ids_map_text (c : Message → Prop) [DecidablePred c] (t : String) (ms : List Message) :
    ids (ms.map (fun m => if c m then { m with text := t } else m)) = ids ms := by
  simp only [ids, List.map_map]
  apply List.map_congr_left
  intro m _
  by_cases h : c m <;> simp [h]

theorem fetchData_nodup (r : Remote FetchResponse) (s : State)
    (h : fetchedDistinct r = true) : (ids (fetchData r s).messages).Nodup := by
  rcases r with ⟨⟨_ | ⟨_, _, _, _ | chats⟩⟩⟩ | _
  · exact List.nodup_nil
  · exact List.nodup_nil
  · simpa [fetchedDistinct] using h
  · exact List.nodup_nil

theorem step_nodup (chatId : String) (op : Op) (s : State) (hop : op.fetchedDistinct = true)
    (hs : (ids s.messages).Nodup) : (ids (step chatId op s).messages).Nodup := by
  cases op with
  | loadChat r => exact fetchData_nodup r s hop
  | typeNewMessage text => exact hs
  | sendMessage send refetch =>
    simp only [step, handleSendMessage]
    split
    · exact hs
    · cases send with
      | resolved _ => exact fetchData_nodup refetch _ hop
      | rejected => exact hs
  | deleteMessage messageId del =>
    cases del with
    | resolved _ => exact ids_filter_nodup _ _ hs
    | rejected => exact hs
  | startEdit message => exact hs
  | typeEditText text => exact hs
  | cancelEdit => exact hs
  | commitEdit upd =>
    simp only [step, handleEditMessage]
    split
    · exact hs
    · cases upd with
      | resolved _ =>
        simp only
        rw [ids_map_text]
        exact hs
      | rejected => exact hs
  | push ctx r =>
    simp only [step, onPublication]
    split
    · exact hs
    · split
      · exact hs
      · split
        · exact hs
        · split
          · exact fetchData_nodup r s hop
          · split
            · simp only [updateChatInfo_messages]
              rw [ids_map_text]
              exact hs
            · split
              · simp only [updateChatInfo_messages]
                exact ids_filter_nodup _ _ hs
              · exact hs

theorem run_nodup (chatId : String) (ops : List Op) (s : State)
    (hops : ∀ op ∈ ops, op.fetchedDistinct = true) (hs : (ids s.messages).Nodup) :
    (ids (run chatId ops s).messages).Nodup := by
  induction ops generalizing s with
  | nil => exact hs
  | cons op rest ih =>
    simp only [run, List.foldl_cons]
    exact ih _ (fun o ho => hops o (List.mem_cons_of_mem _ ho))
      (step_nodup chatId op s (hops op (List.mem_cons_self _ _)) hs)

/-- C5: message ids stay unique under reconciliation.  Starting from the initial
empty list, after every sequence of operations (loads, sends with their
refetch, commits, deletes, typing, and the three kinds of push event), with
every history the service returns listing each id once as the data model of a
chat requires, the messages list has no two entries with the same id: no
operation of the component introduces a duplicate. -/
theorem ids_nodup_of_fetched_distinct (chatId : String) (ops : List Op)
    (hops : ∀ op ∈ ops, op.fetchedDistinct = true) :
    (ids (run chatId ops State.init).messages).Nodup :=
  run_nodup chatId ops State.init hops List.nodup_nil

/-- Witness for C5: load three messages, delete one by a push event and another
locally, edit the third. -/
theorem ids_nodup_of_fetched_distinct_witness :
    (ids (run "42"
      [Op.loadChat (.resolved ⟨some ⟨"Team", "d", [],
          some [⟨.num 3, "al", "c"⟩, ⟨.num 2, "bo", "b"⟩, ⟨.num 1, "al", "a"⟩]⟩⟩),
        Op.push ⟨some ⟨some "delete_message", ⟨.num 2, ""⟩⟩⟩ .rejected,
        Op.deleteMessage (.num 3) (.resolved ()),
        Op.startEdit ⟨.num 1, "al", "a"⟩,
        Op.commitEdit (.resolved ())] State.init).messages).Nodup :=
  ids_nodup_of_fetched_distinct "42" _ (by decide)

/-! ## Committing without a pending edit -/

theorem uiStep_draft_invariant (chatId : String) (op : Op) (s : State)
    (hs : s.editMessageId = none → s.editMessageText = "") :
    (uiStep chatId op s).editMessageId = none → (uiStep chatId op s).editMessageText = "" := by
  unfold uiStep
  split
  next hen =>
    cases op with
    | loadChat r =>
      simp only [step, (fetchData_edit r s).1, (fetchData_edit r s).2]
      exact hs
    | typeNewMessage text => exact hs
    | sendMessage send refetch =>
      simp only [step, handleSendMessage]
      split
      · exact hs
      · cases send with
        | resolved _ =>
          simp only [(fetchData_edit refetch _).1, (fetchData_edit refetch _).2]
          exact hs
        | rejected => exact hs
    | deleteMessage messageId del =>
      cases del with
      | resolved _ => exact hs
      | rejected => exact hs
    | startEdit message =>
      intro h
      simp [step, startEditingMessage] at h
    | typeEditText text =>
      intro h
      simp only [step] at h
      simp [enabled, h] at hen
    | cancelEdit => intro _; rfl
    | commitEdit upd =>
      simp only [step, handleEditMessage]
      split
      · exact hs
      · cases upd with
        | resolved _ => intro _; rfl
        | rejected => exact hs
    | push ctx r =>
      simp only [step, onPublication]
      split
      · exact hs
      · split
        · exact hs
        · split
          · exact hs
          · split
            · simp only [(fetchData_edit r s).1, (fetchData_edit r s).2]
              exact hs
            · split
              · simp only [(updateChatInfo_edit r _).1, (updateChatInfo_edit r _).2]
                exact hs
              · split
                · simp only [(updateChatInfo_edit r _).1, (updateChatInfo_edit r _).2]
                  exact hs
                · exact hs
  next => exact hs

theorem uiRun_draft_invariant (chatId : String) (ops : List Op) (s : State)
    (hs : s.editMessageId = none → s.editMessageText = "") :
    (uiRun chatId ops s).editMessageId = none → (uiRun chatId ops s).editMessageText = "" := by
  induction ops generalizing s with
  | nil => exact hs
  | cons op rest ih =>
    simp only [uiRun, List.foldl_cons]
    exact ih _ (uiStep_draft_invariant chatId op s hs)

/-- C7: in every state the component reaches from its initial state through
the operations it offers (the draft input and the edit form exist only while
`editMessageId !== null`), whenever `editMessageId` is null the draft is the
empty string and `handleEditMessage` is a no-op for either remote outcome: it
issues no remote call and returns the state, hence messages, `editMessageId`
and `editMessageText`, unchanged. -/
theorem handleEditMessage_noop_without_pending_edit (chatId : String) (ops : List Op)
    (upd : Remote Unit) (h : (uiRun chatId ops State.init).editMessageId = none) :
    (uiRun chatId ops State.init).editMessageText = "" ∧
      handleEditMessage chatId upd (uiRun chatId ops State.init) =
        (uiRun chatId ops State.init, []) := by
  have ht := uiRun_draft_invariant chatId ops State.init (fun _ => rfl) h
  refine ⟨ht, ?_⟩
  unfold handleEditMessage
  rw [ht]
  rfl

/-- Witness for C7: load one message, start editing it, type a draft, cancel. -/
theorem handleEditMessage_noop_without_pending_edit_witness :
    handleEditMessage "42" (.resolved ())
        (uiRun "42"
          [Op.loadChat (.resolved ⟨some ⟨"Team", "d", [], some [⟨.num 1, "al", "hi"⟩]⟩⟩),
            Op.startEdit ⟨.num 1, "al", "hi"⟩, Op.typeEditText "hello", Op.cancelEdit]
          State.init) =
      (uiRun "42"
          [Op.loadChat (.resolved ⟨some ⟨"Team", "d", [], some [⟨.num 1, "al", "hi"⟩]⟩⟩),
            Op.startEdit ⟨.num 1, "al", "hi"⟩, Op.typeEditText "hello", Op.cancelEdit]
          State.init, []) :=
  (handleEditMessage_noop_without_pending_edit "42" _ (.resolved ()) (by decide)).2


/-! ## Realtime client across a chat switch -/

/-- C4, evaluated on the code: mount on chat "A", let `initCentrifuge` finish,
then switch to chat "B".  The cleanup closure registered by the effect run for
"A" captured the `centrifuge` cell of that render, which was still null, so
the cleanup that runs at the switch disconnects nothing: the instance created
for "A" stays connected while "B" is displayed.  A `send_message` publication
on the "A" subscription then replaces the messages of "B" by the history of
"A".  The closure registered at the switch is the one that holds the instance
of "A": unmounting disconnects that instance and leaves the instance of "B"
connected. -/
theorem cleanup_captures_stale_centrifuge :
    (Component.run
        [.render "A" (.resolved ⟨some ⟨"A", "", [], some [⟨.num 1, "al", "in A"⟩]⟩⟩),
          .tokenSettled true] Component.init).clients = [⟨"A", true⟩] ∧
      (Component.run
        [.render "A" (.resolved ⟨some ⟨"A", "", [], some [⟨.num 1, "al", "in A"⟩]⟩⟩),
          .tokenSettled true] Component.init).cleanup = some none ∧
      (Component.run
        [.render "A" (.resolved ⟨some ⟨"A", "", [], some [⟨.num 1, "al", "in A"⟩]⟩⟩),
          .tokenSettled true,
          .render "B" (.resolved ⟨some ⟨"B", "", [], some [⟨.num 7, "bo", "in B"⟩]⟩⟩)]
        Component.init) =
        { deps := some "B", centrifuge := some 0, clients := [⟨"A", true⟩],
          cleanup := some (some 0), pending := ["B"],
          ui := { State.init with
            messages := [⟨.num 7, "bo", "in B"⟩],
            chatInfo := some ⟨"B", "", [], some [⟨.num 7, "bo", "in B"⟩]⟩ } } ∧
      (Component.run
        [.render "A" (.resolved ⟨some ⟨"A", "", [], some [⟨.num 1, "al", "in A"⟩]⟩⟩),
          .tokenSettled true,
          .render "B" (.resolved ⟨some ⟨"B", "", [], some [⟨.num 7, "bo", "in B"⟩]⟩⟩),
          .publication 0 ⟨some ⟨some "send_message", ⟨.num 2, ""⟩⟩⟩
            (.resolved ⟨some ⟨"A", "", [],
              some [⟨.num 2, "al", "new in A"⟩, ⟨.num 1, "al", "in A"⟩]⟩⟩)]
        Component.init).ui.messages =
        [⟨.num 2, "al", "new in A"⟩, ⟨.num 1, "al", "in A"⟩] ∧
      (Component.run
        [.render "A" (.resolved ⟨some ⟨"A", "", [], some [⟨.num 1, "al", "in A"⟩]⟩⟩),
          .tokenSettled true,
          .render "B" (.resolved ⟨some ⟨"B", "", [], some [⟨.num 7, "bo", "in B"⟩]⟩⟩),
          .tokenSettled true,
          .unmount] Component.init).clients = [⟨"A", false⟩, ⟨"B", true⟩] := by
  decide

/-! ## Membership panel -/

/-- C10, evaluated on the code: with members `[bob]`, search "a" (the service
returns `al`), select `al` and add, then select the same row again, which is
still listed because the search results are filtered only when a search runs,
and add again.  Both adds resolve and `al` is a member twice. -/
theorem stale_search_results_duplicate_member :
    (([⟨"bob", "Bob"⟩] : List Member).map (fun m => m.username)).Nodup ∧
      (ModalState.run
        [.search "a" (.resolved [⟨"al", "Al"⟩]), .select 0, .addMembers (.resolved ()),
          .select 0, .addMembers (.resolved ())]
        ⟨[⟨"bob", "Bob"⟩], "", [], []⟩) =
        ⟨[⟨"bob", "Bob"⟩, ⟨"al", "Al"⟩, ⟨"al", "Al"⟩], "a", [⟨"al", "Al"⟩], []⟩ ∧
      ¬ ((ModalState.run
        [.search "a" (.resolved [⟨"al", "Al"⟩]), .select 0, .addMembers (.resolved ()),
          .select 0, .addMembers (.resolved ())]
        ⟨[⟨"bob", "Bob"⟩], "", [], []⟩).members.map (fun m => m.username)).Nodup := by
  decide

end Messenger
